import Mathlib

/-!
# SyncPad backend — shallow embedding and verification

A shallow embedding of the SyncPad backend core (encrypted-envelope data
model, survey schema, submission gatekeeper pipeline, account key-material
schema, user lookup), translated from the Python sources:

* `backend/app/models/survey.py`   — pydantic survey models and validators
* `backend/app/controllers/survey.py` — survey controller (`submit_survey`,
  `public_survey`, `create_survey`)
* `backend/canary/app/models/user.py` — `Argon2Modal` and user models
* `backend/canary/app/lib/user.py` — `User.exists` / `User.get`

Payload fields are modelled pre-parse: a field a client may omit is an
`Option`, validation is an executable function.  Pydantic `Field(..., )`
constraints become explicit boolean checks; `@validator` bodies become the
corresponding Lean checks run after the field checks, and pydantic
`ValidationError`s become values of explicit error types.  Parts of the
repository that the controllers call but whose sources are not part of
this development (`app/lib/survey.py`, `app/lib/mCaptcha.py`,
`app/lib/geoip.py`, `app/models/customs.py`) are modelled from the design
document and marked as such in their doc comments.
-/

namespace SyncPad

/-! ## Envelope model

`app/models/customs.py` defines `IvField` (the `iv` half of every
envelope); `app/models/survey.py` adds a `cipher_text` field with a
site-specific `max_length` at every usage site.  -/

/-- Modelled from the spec: `IvField` (`app/models/customs.py`) is not
among the given sources.  The design document says the `iv` is a required
fixed-format value "validated by length, not content" within a fixed
length window; the exact window bounds are unspecified, so they are kept
as named constants.  Lower bound of the iv length window. -/
def ivMinLength : Nat := 1

/-- Modelled from the spec: upper bound of the iv length window (see
`ivMinLength`). -/
def ivMaxLength : Nat := 44

/-- Validation of the `iv` field of an envelope: required (absent fails),
and its length must lie in the configured window. -/
def ivOk (iv : Option String) : Bool :=
  match iv with
  | none => false
  | some s => decide (ivMinLength ≤ s.length) && decide (s.length ≤ ivMaxLength)

/-- Validation of the `cipher_text` field of an envelope, as declared at
every usage site in `app/models/survey.py`:
`cipher_text: str = Field(..., max_length=maxLen)` — required, with an
upper length bound and no lower bound. -/
def cipherTextOk (ct : Option String) (maxLen : Nat) : Bool :=
  match ct with
  | none => false
  | some s => decide (s.length ≤ maxLen)

/-- An envelope payload as received: both halves may be absent. -/
structure EnvelopeP where
  iv : Option String
  cipher_text : Option String
deriving DecidableEq, Repr

/-- The envelope validator: the conjunction of the `IvField` check and the
site's `cipher_text` check.  `validate(iv, cipher_text, max_len)` of
§4.1 of the design document. -/
def envelopeOk (e : EnvelopeP) (maxLen : Nat) : Bool :=
  ivOk e.iv && cipherTextOk e.cipher_text maxLen

/-! Per-site `max_length` bounds from `app/models/survey.py`. -/

/-- `TitleModel.cipher_text` bound. -/
def titleMaxLength : Nat := 128
/-- `SurveyDescriptionModel.cipher_text` bound. -/
def descriptionMaxLength : Nat := 1024
/-- `SurveyChoicesModel.cipher_text` bound. -/
def choiceMaxLength : Nat := 512
/-- `SurveyQuestionsModel.cipher_text` bound. -/
def questionMaxLength : Nat := 256
/-- `SurveyRegexModel.cipher_text` bound. -/
def regexMaxLength : Nat := 128
/-- `SurveySecretKeyModel`, `SurveySignKeyPairModel` and
`SurveyKeypairCipherModel` `cipher_text` bound. -/
def keyMaxLength : Nat := 240
/-- `public_key` bound of `SurveySignPublicKeyModel` (and of the canary
account key models). -/
def publicKeyMaxLength : Nat := 44

/-! ## Account key-derivation parameters (`Argon2Modal`,
`backend/canary/app/models/user.py`) -/

/-- `argon2.profiles.RFC_9106_LOW_MEMORY.time_cost` — the second
recommended option of RFC 9106 uses 3 passes. -/
def rfc9106LowMemoryTimeCost : Int := 3

/-- `argon2.profiles.RFC_9106_LOW_MEMORY.memory_cost` — the second
recommended option of RFC 9106 uses 64 MiB = 65536 KiB. -/
def rfc9106LowMemoryMemoryCost : Int := 65536

/-- An `Argon2Modal` payload: `salt`, `time_cost`, `memory_cost`. -/
structure Argon2Payload where
  salt : String
  time_cost : Int
  memory_cost : Int
deriving DecidableEq, Repr

/-- `Argon2Modal` validation: `salt` has `max_length=64`; `time_cost` has
`ge=RFC_9106_LOW_MEMORY.time_cost - 1, le=12`; `memory_cost` has
`ge=RFC_9106_LOW_MEMORY.memory_cost - 1, le=3355443200`. -/
def argon2Ok (p : Argon2Payload) : Bool :=
  decide (p.salt.length ≤ 64)
    && decide (rfc9106LowMemoryTimeCost - 1 ≤ p.time_cost)
    && decide (p.time_cost ≤ 12)
    && decide (rfc9106LowMemoryMemoryCost - 1 ≤ p.memory_cost)
    && decide (p.memory_cost ≤ 3355443200)

/-! ## Survey schema (`app/models/survey.py`) -/

/-- `SurveyQuestionType` — closed tagged-variant set. -/
inductive SurveyQuestionType where
  | ShortAnswer
  | Paragraph
  | MultipleChoice
  | SingleChoice
deriving DecidableEq, Repr

/-- A `SurveyChoicesModel` payload: a choice id plus its label envelope
(`iv` from `IvField`, `cipher_text` with `max_length=512`). -/
structure SurveyChoicesModel where
  id : Int
  envelope : EnvelopeP
deriving DecidableEq, Repr

/-- A `SurveyQuestionModel` payload. -/
structure SurveyQuestionModel where
  id : Int
  regex : Option EnvelopeP
  description : Option EnvelopeP
  question : EnvelopeP
  choices : Option (List SurveyChoicesModel)
  required : Bool
  type : SurveyQuestionType
deriving DecidableEq, Repr

/-- A `SurveySignKeyPairModel` payload: plaintext public key plus the
envelope wrapping the private key. -/
structure SurveySignKeyPairModel where
  public_key : String
  envelope : EnvelopeP
deriving DecidableEq, Repr

/-- A `SurveyKeypairModel` payload: the public and private halves are each
a `SurveyKeypairCipherModel` envelope. -/
structure SurveyKeypairModel where
  public_key : EnvelopeP
  private_key : EnvelopeP
deriving DecidableEq, Repr

/-- A `SurveyCreateModel` payload: the `__SurveySharedModel` fields plus
the key material (`sign_keypair`, `secret_key`, `keypair`). -/
structure SurveyCreateModel where
  title : EnvelopeP
  description : Option EnvelopeP
  questions : List SurveyQuestionModel
  signature : String
  requires_login : Bool
  proxy_block : Bool
  allow_multiple_submissions : Bool
  algorithms : String
  sign_keypair : SurveySignKeyPairModel
  secret_key : EnvelopeP
  keypair : SurveyKeypairModel
deriving DecidableEq, Repr

/-- The error taxonomy of survey-create validation (pydantic
`ValidationError` causes, §7 of the design document). -/
inductive ValError where
  | Shape
  | TooManyItems
  | DuplicateQuestionIds
  | DuplicateChoiceIds
deriving DecidableEq, Repr

/-- `Field(..., ge=0, lt=1024)` on question and choice ids. -/
def idInRange (i : Int) : Bool :=
  decide (0 ≤ i) && decide (i < 1024)

/-- Validation of one `SurveyChoicesModel`: id range plus the label
envelope (`max_length=512`). -/
def checkChoice (c : SurveyChoicesModel) : Except ValError Unit :=
  if idInRange c.id && envelopeOk c.envelope choiceMaxLength then .ok ()
  else .error .Shape

/-- Field validation of a list of choices, item by item. -/
def checkChoiceList : List SurveyChoicesModel → Except ValError Unit
  | [] => .ok ()
  | c :: rest =>
    match checkChoice c with
    | .error e => .error e
    | .ok () => checkChoiceList rest

/-- Validation of an optional envelope field (`Optional[...] = None`). -/
def checkOptEnvelope (e : Option EnvelopeP) (maxLen : Nat) : Except ValError Unit :=
  match e with
  | none => .ok ()
  | some env => if envelopeOk env maxLen then .ok () else .error .Shape

/-- Validation of one `SurveyQuestionModel`: field constraints (id range,
the `regex`/`description`/`question` envelopes, `max_items=56` on
`choices`, each choice), then the `choices_validator` duplicate-id check
(`if not v: return v` — an absent or empty list skips the check). -/
def checkQuestion (q : SurveyQuestionModel) : Except ValError Unit :=
  if idInRange q.id then
    match checkOptEnvelope q.regex regexMaxLength with
    | .error e => .error e
    | .ok () =>
      match checkOptEnvelope q.description descriptionMaxLength with
      | .error e => .error e
      | .ok () =>
        if envelopeOk q.question questionMaxLength then
          match q.choices with
          | none => .ok ()
          | some cs =>
            if cs.length ≤ 56 then
              match checkChoiceList cs with
              | .error e => .error e
              | .ok () =>
                if (cs.map (·.id)).Nodup then .ok ()
                else .error .DuplicateChoiceIds
            else .error .TooManyItems
        else .error .Shape
  else .error .Shape

/-- Field validation of the `questions` list, item by item. -/
def checkQuestionList : List SurveyQuestionModel → Except ValError Unit
  | [] => .ok ()
  | q :: rest =>
    match checkQuestion q with
    | .error e => .error e
    | .ok () => checkQuestionList rest

/-- Validation of the `questions` field of `__SurveySharedModel`: each
item, the `max_items=128` bound, then the `questions_validator`
duplicate-id check. -/
def checkQuestions (qs : List SurveyQuestionModel) : Except ValError Unit :=
  match checkQuestionList qs with
  | .error e => .error e
  | .ok () =>
    if qs.length ≤ 128 then
      if (qs.map (·.id)).Nodup then .ok ()
      else .error .DuplicateQuestionIds
    else .error .TooManyItems

/-- Validation of a `SurveySignKeyPairModel`: `public_key` with
`max_length=44` plus the private-key envelope with `max_length=240`. -/
def checkSignKeyPair (k : SurveySignKeyPairModel) : Except ValError Unit :=
  if decide (k.public_key.length ≤ publicKeyMaxLength)
      && envelopeOk k.envelope keyMaxLength then .ok ()
  else .error .Shape

/-- Validation of a `SurveyKeypairModel`: both halves are
`SurveyKeypairCipherModel` envelopes with `max_length=240`. -/
def checkKeypair (k : SurveyKeypairModel) : Except ValError Unit :=
  if envelopeOk k.public_key keyMaxLength
      && envelopeOk k.private_key keyMaxLength then .ok ()
  else .error .Shape

/-- All field checks of a `SurveyCreateModel` payload, in
field-declaration order (title, description, questions, signature, key
material). -/
def checkSurveyCreate (p : SurveyCreateModel) : Except ValError Unit :=
  if envelopeOk p.title titleMaxLength then
    match checkOptEnvelope p.description descriptionMaxLength with
    | .error e => .error e
    | .ok () =>
      match checkQuestions p.questions with
      | .error e => .error e
      | .ok () =>
        if decide (p.signature.length ≤ 128) then
          match checkSignKeyPair p.sign_keypair with
          | .error e => .error e
          | .ok () =>
            if envelopeOk p.secret_key keyMaxLength then
              checkKeypair p.keypair
            else .error .Shape
        else .error .Shape
  else .error .Shape

/-- `validateCreate`: run every check of a `SurveyCreateModel` payload.
On success pydantic validators return their input unchanged, so the
validated aggregate is the payload itself. -/
def validateSurveyCreate (p : SurveyCreateModel) : Except ValError SurveyCreateModel :=
  match checkSurveyCreate p with
  | .error e => .error e
  | .ok () => .ok p

/-! ## Full aggregate, creation and projections -/

/-- A stored `SurveyModel` aggregate: the create payload plus the fields
attached by `create_survey` (`created` timestamp, generated `_id`,
`user_id`).  `projectFull` is the identity on this representation. -/
structure SurveyModel where
  create : SurveyCreateModel
  created : Nat
  id : String
  user_id : String
deriving DecidableEq, Repr

/-- `create_survey` (`app/controllers/survey.py`): the stored document is
`{**data.dict(), "created": now, "user_id": request.user}` with the
store-generated id. -/
def create_survey (data : SurveyCreateModel) (now : Nat) (genId user : String) :
    SurveyModel :=
  { create := data, created := now, id := genId, user_id := user }

/-- `projectFull`: identity transform, the owner-visible representation. -/
def projectFull (s : SurveyModel) : SurveyModel := s

/-- The create-payload fields of a stored survey — what re-serializing the
full aggregate feeds back into `SurveyCreateModel` validation (the extra
`created`/`_id`/`user_id` keys are not `SurveyCreateModel` fields). -/
def createProjection (s : SurveyModel) : SurveyCreateModel := s.create

/-- `SurveySignPublicKeyModel`: only the plaintext public key. -/
structure SurveySignPublicKeyModel where
  public_key : String
deriving DecidableEq, Repr

/-- `SurveyPublicKeyModel`: only the public-key envelope. -/
structure SurveyPublicKeyModel where
  public_key : EnvelopeP
deriving DecidableEq, Repr

/-- `SurveyPublicModel`: the `__SurveySharedModel` fields plus `created`,
`_id`, `user_id`, with `sign_keypair` narrowed to
`SurveySignPublicKeyModel`, `keypair` narrowed to
`SurveyPublicKeyModel`, and no `secret_key` field. -/
structure SurveyPublicModel where
  title : EnvelopeP
  description : Option EnvelopeP
  questions : List SurveyQuestionModel
  signature : String
  requires_login : Bool
  proxy_block : Bool
  allow_multiple_submissions : Bool
  algorithms : String
  created : Nat
  id : String
  user_id : String
  sign_keypair : SurveySignPublicKeyModel
  keypair : SurveyPublicKeyModel
deriving DecidableEq, Repr

/-- `projectPublic`: re-parse the stored aggregate as `SurveyPublicModel`
— the narrowed field types keep only the public-key halves and drop
`secret_key` (`Survey.public` serves this projection;
`SurveyPublicModel` is defined in `app/models/survey.py`). -/
def projectPublic (s : SurveyModel) : SurveyPublicModel :=
  { title := s.create.title
    description := s.create.description
    questions := s.create.questions
    signature := s.create.signature
    requires_login := s.create.requires_login
    proxy_block := s.create.proxy_block
    allow_multiple_submissions := s.create.allow_multiple_submissions
    algorithms := s.create.algorithms
    created := s.created
    id := s.id
    user_id := s.user_id
    sign_keypair := { public_key := s.create.sign_keypair.public_key }
    keypair := { public_key := s.create.keypair.public_key } }

/-- Replace every private/secret half of a stored survey's key material
(the sign-keypair private-key envelope, the keypair private-key envelope
and the secret-key envelope) by a fixed blank.  Used to state that the
public projection does not depend on that material. -/
def eraseSecretMaterial (s : SurveyModel) : SurveyModel :=
  { s with create :=
    { s.create with
      sign_keypair := { s.create.sign_keypair with envelope := ⟨none, none⟩ }
      keypair := { s.create.keypair with private_key := ⟨none, none⟩ }
      secret_key := ⟨none, none⟩ } }

/-! ## Submission gatekeeper (`submit_survey`,
`app/controllers/survey.py`) -/

/-- The policy view of a stored survey consulted by `submit_survey`.
`requires_login`, `proxy_block` and `allow_multiple_submissions` are the
`__SurveySharedModel` flags; `requires_captcha` is read by the controller
from the object `Survey.get` returns.  Modelled from the spec:
`Survey.get` (`app/lib/survey.py`) is not among the given sources; per
§4.4 of the design document it yields the stored survey's full policy
view, including the captcha-requirement flag. -/
structure SurveyPolicy where
  requires_captcha : Bool
  requires_login : Bool
  proxy_block : Bool
  allow_multiple_submissions : Bool
deriving DecidableEq, Repr

/-- A persisted answer set, keyed by `(survey_id, submitter_id_or_none)`. -/
structure AnswerSetRecord where
  survey_id : String
  user_id : Option String
deriving DecidableEq, Repr

/-- The document-store state the pipeline reads and writes: the stored
surveys (by id) and the recorded answer sets. -/
structure StoreState where
  surveys : List (String × SurveyPolicy)
  answers : List AnswerSetRecord
deriving DecidableEq, Repr

/-- Look a survey up by id (`Survey(state, id_).get()`; `none` models
`SurveyNotFoundException`). -/
def lookupSurvey (st : StoreState) (survey_id : String) : Option SurveyPolicy :=
  (st.surveys.find? (fun kv => kv.1 = survey_id)).map (·.2)

/-- The request context of one submission: the authenticated identity
(`request.user`), the client network origin (`request.client.host`) and
the caller-supplied captcha token. -/
structure RequestCtx where
  user : Option String
  client_host : Option String
  captcha : Option String
deriving DecidableEq, Repr

/-- A GeoIP lookup result; the controller reads its `proxy` field. -/
structure GeoIpRecord where
  proxy : String
deriving DecidableEq, Repr

/-- The external collaborators the pipeline calls: the captcha verifier
and the network-origin reputation lookup (`none` = origin unknown). -/
structure Externals where
  captchaVerify : String → Bool
  geoipLookup : String → Option GeoIpRecord

/-- The typed rejections of the submission pipeline (§7 of the design
document; `InvalidAccountAuth` is the code's name for
`AuthenticationRequiredError`). -/
inductive SubmitError where
  | SurveyNotFound
  | CaptchaRequired
  | CaptchaInvalid
  | InvalidAccountAuth
  | ProxyBlocked
  | DuplicateSubmission
deriving DecidableEq, Repr

/-- Modelled from the spec: `validate_captcha` (`app/lib/mCaptcha.py`) is
not among the given sources.  Per §4.4 gate 1 of the design document, an
absent token fails with `CaptchaRequiredError` and a token the external
verifier rejects fails with `CaptchaInvalidError`. -/
def validate_captcha (verify : String → Bool) (captcha : Option String) :
    Except SubmitError Unit :=
  match captcha with
  | none => .error .CaptchaRequired
  | some t => if verify t then .ok () else .error .CaptchaInvalid

/-- Modelled from the spec: `Survey.submit_answers` (`app/lib/survey.py`)
is not among the given sources.  Per §4.4 gate 5 of the design document it
writes the validated answer set keyed by `(survey_id,
submitter_id_or_none)`. -/
def submit_answers (st : StoreState) (survey_id : String)
    (user_id : Option String) : StoreState :=
  { st with answers := st.answers ++ [⟨survey_id, user_id⟩] }

/-- The gates `submit_survey` runs after the captcha gate, translated
line by line from `app/controllers/survey.py`:

* authentication gate — `user_id = request.user` when present; otherwise
  `InvalidAccountAuth` is raised when `survey.requires_login`;
* duplicate gate — `if not survey.allow_multiple_submissions: pass` — the
  condition is computed and its body is `pass`, so nothing happens;
* proxy gate — when `survey.proxy_block` and the client host is known
  (non-empty), the GeoIP lookup runs and `if geoip_lookup and
  geoip_lookup["proxy"] == "yes": pass` — again a `pass` body, so the
  looked-up verdict is discarded;
* persist — `Survey(state, id_).submit_answers(data, user_id=user_id)`. -/
def gatesAfterCaptcha (ext : Externals) (st : StoreState) (req : RequestCtx)
    (survey_id : String) (survey : SurveyPolicy) :
    Except SubmitError StoreState :=
  match (match req.user with
         | some u => Except.ok (some u)
         | none =>
           if survey.requires_login then Except.error SubmitError.InvalidAccountAuth
           else Except.ok (none : Option String)) with
  | .error e => .error e
  | .ok user_id =>
    let _dedupConditionIgnored := !survey.allow_multiple_submissions
    let _proxyVerdictIgnored :=
      survey.proxy_block &&
        (match req.client_host with
         | none => false
         | some host =>
           !host.isEmpty &&
             (match ext.geoipLookup host with
              | none => false
              | some r => decide (r.proxy = "yes")))
    .ok (submit_answers st survey_id user_id)

/-- `submit_survey` (`app/controllers/survey.py`): look the survey up,
run the captcha gate when `survey.requires_captcha`, then the remaining
gates. -/
def submitSurvey (ext : Externals) (st : StoreState) (req : RequestCtx)
    (survey_id : String) : Except SubmitError StoreState :=
  match lookupSurvey st survey_id with
  | none => .error .SurveyNotFound
  | some survey =>
    match (if survey.requires_captcha
           then validate_captcha ext.captchaVerify req.captcha
           else .ok ()) with
    | .error e => .error e
    | .ok () => gatesAfterCaptcha ext st req survey_id survey

/-- Whether an identity already has a recorded answer set for a survey —
the duplicate condition of §4.4 gate 4 of the design document. -/
def hasRecordedAnswerSet (st : StoreState) (survey_id : String)
    (user : String) : Bool :=
  st.answers.any (fun a => a.survey_id = survey_id && a.user_id = some user)

/-- How many answer sets a given `(survey_id, submitter)` key has
recorded. -/
def answerSetCount (st : StoreState) (survey_id : String)
    (user : Option String) : Nat :=
  (st.answers.filter (fun a => a.survey_id = survey_id && a.user_id = user)).length

/-! ## User lookup (`backend/canary/app/lib/user.py`) -/

/-- A stored user document, parsed (`UserModel`); the fields beyond
`email` are not consulted by the lookup code. -/
structure UserModel where
  email : String
  id : String
  created : Nat
  email_verified : Bool
deriving DecidableEq, Repr

/-- `UserNotFoundException`. -/
inductive UserError where
  | UserNotFound
deriving DecidableEq, Repr

/-- `state.mongo.user.count_documents({"email": email})`. -/
def countDocuments (db : List UserModel) (email : String) : Nat :=
  (db.filter (fun u => u.email = email)).length

/-- `state.mongo.user.find_one({"email": email})`. -/
def findOne (db : List UserModel) (email : String) : Option UserModel :=
  db.find? (fun u => u.email = email)

/-- `User.exists`: raises `UserNotFoundException` when
`count_documents == 0`, otherwise returns `None`. -/
def userExists (db : List UserModel) (email : String) : Except UserError Unit :=
  if countDocuments db email = 0 then .error .UserNotFound else .ok ()

/-- `User.get`: `find_one` by email; `if not user: raise
UserNotFoundException`; otherwise the document parsed as `UserModel`. -/
def userGet (db : List UserModel) (email : String) : Except UserError UserModel :=
  match findOne db email with
  | none => .error .UserNotFound
  | some u => .ok u

/-! ## Concrete fixtures used by witnesses and counterexamples -/

/-- A small well-formed envelope (12-character iv, short cipher text). -/
def envOkSmall : EnvelopeP := ⟨some "0123456789ab", some "ciphertext"⟩

/-- A choice with id 0. -/
def choiceZero : SurveyChoicesModel := ⟨0, envOkSmall⟩

/-- A choice with id 1. -/
def choiceOne : SurveyChoicesModel := ⟨1, envOkSmall⟩

/-- A single-choice question with id 0 and choices 0 and 1 — the worked
example of §8 of the design document. -/
def questionZero : SurveyQuestionModel :=
  ⟨0, none, none, envOkSmall, some [choiceZero, choiceOne], false, .SingleChoice⟩

/-- A question that duplicates `questionZero`'s id. -/
def questionZeroDup : SurveyQuestionModel :=
  ⟨0, none, none, envOkSmall, none, false, .ShortAnswer⟩

/-- A question whose two choices share id 0. -/
def questionDupChoices : SurveyQuestionModel :=
  ⟨1, none, none, envOkSmall, some [choiceZero, ⟨0, envOkSmall⟩], false, .MultipleChoice⟩

/-- A well-formed sign keypair payload. -/
def signKeyPairSmall : SurveySignKeyPairModel := ⟨"signpk", envOkSmall⟩

/-- A well-formed encryption keypair payload. -/
def keypairSmall : SurveyKeypairModel := ⟨envOkSmall, envOkSmall⟩

/-- A fully valid survey-create payload. -/
def payloadValid : SurveyCreateModel :=
  ⟨envOkSmall, none, [questionZero], "sig", false, false, false,
    "XChaCha20Poly1305+ED25519+X25519_XSalsa20Poly1305+BLAKE2b",
    signKeyPairSmall, envOkSmall, keypairSmall⟩

/-- `payloadValid` with a second question whose id collides. -/
def payloadDupQuestionIds : SurveyCreateModel :=
  { payloadValid with questions := [questionZero, questionZeroDup] }

/-- `payloadValid` with an added question whose two choices share id 0. -/
def payloadDupChoiceIds : SurveyCreateModel :=
  { payloadValid with questions := [questionZero, questionDupChoices] }

/-- A policy record with every flag off and single submissions only. -/
def policyNoMulti : SurveyPolicy := ⟨false, false, false, false⟩

/-- A policy record with `proxy_block` on (and multiple submissions
allowed, isolating the proxy gate). -/
def policyProxyBlock : SurveyPolicy := ⟨false, false, true, true⟩

/-- A policy record requiring captcha. -/
def policyCaptcha : SurveyPolicy := ⟨true, false, false, true⟩

/-- A policy record requiring captcha and login. -/
def policyCaptchaLogin : SurveyPolicy := ⟨true, true, false, true⟩

/-- A policy record requiring login only. -/
def policyLogin : SurveyPolicy := ⟨false, true, false, true⟩

/-- Externals whose captcha verifier accepts exactly the token "good" and
whose GeoIP lookup knows nothing. -/
def extPlain : Externals := ⟨fun t => decide (t = "good"), fun _ => none⟩

/-- Externals whose GeoIP lookup reports every origin as a proxy. -/
def extProxyYes : Externals := ⟨fun t => decide (t = "good"), fun _ => some ⟨"yes"⟩⟩

/-- An anonymous request with no token and no known origin. -/
def reqAnon : RequestCtx := ⟨none, none, none⟩

/-- A request authenticated as identity U1. -/
def reqU1 : RequestCtx := ⟨some "U1", none, none⟩

/-- A request authenticated as identity U2 from a known origin. -/
def reqU2Host : RequestCtx := ⟨some "U2", some "203.0.113.5", none⟩

/-! # Theorems -/

/-! ## Helper lemmas shared between the main theorems -/

/-- Helper: when the stored survey does not require captcha,
`submit_survey` is the post-captcha pipeline. -/
theorem submitSurvey_no_captcha {ext : Externals} {st : StoreState}
    {req : RequestCtx} {sid : String} {survey : SurveyPolicy}
    (hs : lookupSurvey st sid = some survey)
    (hc : survey.requires_captcha = false) :
    submitSurvey ext st req sid = gatesAfterCaptcha ext st req sid survey := by
  simp [submitSurvey, hs, hc]

/-- Helper: when the stored survey requires captcha and the supplied
token verifies, `submit_survey` is the post-captcha pipeline. -/
theorem submitSurvey_captcha_valid {ext : Externals} {st : StoreState}
    {req : RequestCtx} {sid : String} {survey : SurveyPolicy} {t : String}
    (hs : lookupSurvey st sid = some survey)
    (hc : survey.requires_captcha = true) (ht : req.captcha = some t)
    (hv : ext.captchaVerify t = true) :
    submitSurvey ext st req sid = gatesAfterCaptcha ext st req sid survey := by
  simp [submitSurvey, hs, hc, ht, hv, validate_captcha]

/-- Helper: with an authenticated caller absent and `requires_login` set,
the post-captcha pipeline raises `InvalidAccountAuth`. -/
theorem gatesAfterCaptcha_auth_error {ext : Externals} {st : StoreState}
    {req : RequestCtx} {sid : String} {survey : SurveyPolicy}
    (hl : survey.requires_login = true) (hu : req.user = none) :
    gatesAfterCaptcha ext st req sid survey = .error .InvalidAccountAuth := by
  simp [gatesAfterCaptcha, hl, hu]

/-- C8: `Argon2Modal` validation accepts the key-derivation parameters
exactly when the salt is at most 64 characters, the time cost lies in the
closed interval `[profile - 1, 12]` and the memory cost lies in the
closed interval `[profile - 1, 3355443200]`; both intervals contain the
configured RFC 9106 low-memory profile values. -/
theorem argon2_bounds_characterization :
    (∀ p : Argon2Payload,
        argon2Ok p = true ↔
          (p.salt.length ≤ 64 ∧
           (rfc9106LowMemoryTimeCost - 1 ≤ p.time_cost ∧ p.time_cost ≤ 12) ∧
           (rfc9106LowMemoryMemoryCost - 1 ≤ p.memory_cost ∧
            p.memory_cost ≤ 3355443200))) ∧
    (rfc9106LowMemoryTimeCost - 1 ≤ rfc9106LowMemoryTimeCost ∧
     rfc9106LowMemoryTimeCost ≤ 12 ∧
     rfc9106LowMemoryMemoryCost - 1 ≤ rfc9106LowMemoryMemoryCost ∧
     rfc9106LowMemoryMemoryCost ≤ 3355443200) := by
  constructor
  · intro p
    simp [argon2Ok, and_assoc]
  · refine ⟨by decide, by decide, by decide, by decide⟩

/-- C6 counterexample: an envelope whose `cipher_text` is present but
empty passes validation (here at the title site), although the claim says
an empty field must fail. -/
theorem envelope_empty_ciphertext_accepted :
    (⟨some "0123456789ab", some ""⟩ : EnvelopeP).cipher_text = some "" ∧
    envelopeOk ⟨some "0123456789ab", some ""⟩ titleMaxLength = true := by
  exact ⟨rfl, by decide⟩

/-- C6 amended: envelope validation fails exactly when `cipher_text` is
absent or exceeds the site maximum length, or the iv is absent or outside
its length window; an empty-but-present `cipher_text` is accepted since
no minimum length is imposed.  The validator is a pure function. -/
theorem envelope_validate_characterization :
    (∀ (e : EnvelopeP) (maxLen : Nat),
        envelopeOk e maxLen = true ↔
          (ivOk e.iv = true ∧ cipherTextOk e.cipher_text maxLen = true)) ∧
    (∀ maxLen : Nat, cipherTextOk none maxLen = false) ∧
    (∀ (s : String) (maxLen : Nat),
        cipherTextOk (some s) maxLen = true ↔ s.length ≤ maxLen) ∧
    ivOk none = false ∧
    (∀ s : String,
        ivOk (some s) = true ↔
          (ivMinLength ≤ s.length ∧ s.length ≤ ivMaxLength)) := by
  refine ⟨?_, ?_, ?_, ?_, ?_⟩ <;> simp [envelopeOk, cipherTextOk, ivOk]

/-- C10: `User.get` returns the stored user document exactly when one
with the requested email exists, and fails with `UserNotFoundException`
exactly when none does; `User.exists` fails under exactly the same
condition and otherwise returns without effect. -/
theorem user_lookup_characterization :
    (∀ (db : List UserModel) (email : String),
        userGet db email = .error .UserNotFound ↔ findOne db email = none) ∧
    (∀ (db : List UserModel) (email : String) (u : UserModel),
        findOne db email = some u → userGet db email = .ok u) ∧
    (∀ (db : List UserModel) (email : String),
        findOne db email = none ↔ ∀ u ∈ db, u.email ≠ email) ∧
    (∀ (db : List UserModel) (email : String),
        userExists db email = .error .UserNotFound ↔ findOne db email = none) ∧
    (∀ (db : List UserModel) (email : String),
        userExists db email = .ok () ↔ findOne db email ≠ none) := by
  have hcount : ∀ (db : List UserModel) (email : String),
      countDocuments db email = 0 ↔ findOne db email = none := by
    intro db email
    simp [countDocuments, findOne, List.length_eq_zero, List.filter_eq_nil_iff,
      List.find?_eq_none]
  refine ⟨?_, ?_, ?_, ?_, ?_⟩
  · intro db email
    unfold userGet
    cases h : findOne db email <;> simp [h]
  · intro db email u h
    unfold userGet
    rw [h]
  · intro db email
    simp [findOne, List.find?_eq_none]
  · intro db email
    unfold userExists
    rcases Nat.eq_zero_or_pos (countDocuments db email) with h | h
    · simp [h, (hcount db email).mp h]
    · have hne : countDocuments db email ≠ 0 := Nat.pos_iff_ne_zero.mp h
      simp [hne]
      intro hf
      exact hne ((hcount db email).mpr hf)
  · intro db email
    unfold userExists
    rcases Nat.eq_zero_or_pos (countDocuments db email) with h | h
    · simp [h, (hcount db email).mp h]
    · have hne : countDocuments db email ≠ 0 := Nat.pos_iff_ne_zero.mp h
      simp [hne]
      intro hf
      exact hne ((hcount db email).mpr hf)

/-- C10 witness: on a concrete two-user store, `User.get` finds the
stored document for a present email, and both `User.get` and
`User.exists` agree on a missing one. -/
theorem user_lookup_characterization_witness :
    userGet [⟨"a@x.io", "u1", 0, true⟩, ⟨"b@x.io", "u2", 1, false⟩] "b@x.io" =
      .ok ⟨"b@x.io", "u2", 1, false⟩ ∧
    (userGet [⟨"a@x.io", "u1", 0, true⟩] "c@x.io" = .error .UserNotFound ↔
      findOne [⟨"a@x.io", "u1", 0, true⟩] "c@x.io" = none) :=
  ⟨user_lookup_characterization.2.1 _ "b@x.io" _ (by decide),
    user_lookup_characterization.1 [⟨"a@x.io", "u1", 0, true⟩] "c@x.io"⟩

/-- C1: the duplicate-submission gate of `submit_survey` is a no-op stub
(`if not survey.allow_multiple_submissions: pass`).  On a survey with
`allow_multiple_submissions = false`, identity U1 submits twice and both
calls are accepted: after the second call the key `("s1", U1)` has two
recorded answer sets, although the first already existed and was visible
to the second call. -/
theorem duplicate_gate_noop :
    policyNoMulti.allow_multiple_submissions = false ∧
    submitSurvey extPlain ⟨[("s1", policyNoMulti)], []⟩ reqU1 "s1" =
      .ok ⟨[("s1", policyNoMulti)], [⟨"s1", some "U1"⟩]⟩ ∧
    hasRecordedAnswerSet ⟨[("s1", policyNoMulti)], [⟨"s1", some "U1"⟩]⟩ "s1" "U1" = true ∧
    submitSurvey extPlain ⟨[("s1", policyNoMulti)], [⟨"s1", some "U1"⟩]⟩ reqU1 "s1" =
      .ok ⟨[("s1", policyNoMulti)], [⟨"s1", some "U1"⟩, ⟨"s1", some "U1"⟩]⟩ ∧
    answerSetCount ⟨[("s1", policyNoMulti)], [⟨"s1", some "U1"⟩, ⟨"s1", some "U1"⟩]⟩
      "s1" (some "U1") = 2 := by
  refine ⟨rfl, ?_, by decide, ?_, by decide⟩ <;> rfl

/-- C2: the proxy gate of `submit_survey` is a no-op stub — the GeoIP
verdict is computed and discarded (`if geoip_lookup and
geoip_lookup["proxy"] == "yes": pass`).  On a survey with `proxy_block =
true`, a request from a known origin that the reputation lookup reports
as a proxy is accepted and its answer set persisted. -/
theorem proxy_gate_noop :
    policyProxyBlock.proxy_block = true ∧
    extProxyYes.geoipLookup "203.0.113.5" = some ⟨"yes"⟩ ∧
    reqU2Host.client_host = some "203.0.113.5" ∧
    submitSurvey extProxyYes ⟨[("s2", policyProxyBlock)], []⟩ reqU2Host "s2" =
      .ok ⟨[("s2", policyProxyBlock)], [⟨"s2", some "U2"⟩]⟩ := by
  refine ⟨rfl, rfl, rfl, ?_⟩
  rfl

/-- C3: the captcha gate of `submit_survey`.  When the stored survey
requires captcha, an absent token fails with `CaptchaRequiredError`, a
token the verifier rejects fails with `CaptchaInvalidError`, and a token
the verifier accepts lets the submission proceed to the remaining gates;
when the survey does not require captcha the gate is a no-op and the
submission proceeds to the remaining gates. -/
theorem captcha_gate_behaviour :
    (∀ (ext : Externals) (st : StoreState) (req : RequestCtx) (sid : String)
        (survey : SurveyPolicy), lookupSurvey st sid = some survey →
        survey.requires_captcha = true → req.captcha = none →
        submitSurvey ext st req sid = .error .CaptchaRequired) ∧
    (∀ (ext : Externals) (st : StoreState) (req : RequestCtx) (sid : String)
        (survey : SurveyPolicy) (t : String), lookupSurvey st sid = some survey →
        survey.requires_captcha = true → req.captcha = some t →
        ext.captchaVerify t = false →
        submitSurvey ext st req sid = .error .CaptchaInvalid) ∧
    (∀ (ext : Externals) (st : StoreState) (req : RequestCtx) (sid : String)
        (survey : SurveyPolicy) (t : String), lookupSurvey st sid = some survey →
        survey.requires_captcha = true → req.captcha = some t →
        ext.captchaVerify t = true →
        submitSurvey ext st req sid = gatesAfterCaptcha ext st req sid survey) ∧
    (∀ (ext : Externals) (st : StoreState) (req : RequestCtx) (sid : String)
        (survey : SurveyPolicy), lookupSurvey st sid = some survey →
        survey.requires_captcha = false →
        submitSurvey ext st req sid = gatesAfterCaptcha ext st req sid survey) := by
  refine ⟨?_, ?_, ?_, ?_⟩
  · intro ext st req sid survey hs hc ht
    simp [submitSurvey, hs, hc, ht, validate_captcha]
  · intro ext st req sid survey t hs hc ht hv
    simp [submitSurvey, hs, hc, ht, hv, validate_captcha]
  · intro ext st req sid survey t hs hc ht hv
    exact submitSurvey_captcha_valid hs hc ht hv
  · intro ext st req sid survey hs hc
    exact submitSurvey_no_captcha hs hc

/-- C3 witness: the four captcha-gate behaviours on concrete stores — a
survey requiring captcha rejects a missing token and the token "bad", and
proceeds on the token "good"; a survey not requiring captcha proceeds
with no token. -/
theorem captcha_gate_behaviour_witness :
    submitSurvey extPlain ⟨[("s3", policyCaptcha)], []⟩ reqAnon "s3" =
      .error .CaptchaRequired ∧
    submitSurvey extPlain ⟨[("s3", policyCaptcha)], []⟩ ⟨none, none, some "bad"⟩ "s3" =
      .error .CaptchaInvalid ∧
    submitSurvey extPlain ⟨[("s3", policyCaptcha)], []⟩ ⟨none, none, some "good"⟩ "s3" =
      gatesAfterCaptcha extPlain ⟨[("s3", policyCaptcha)], []⟩
        ⟨none, none, some "good"⟩ "s3" policyCaptcha ∧
    submitSurvey extPlain ⟨[("s1", policyNoMulti)], []⟩ reqAnon "s1" =
      gatesAfterCaptcha extPlain ⟨[("s1", policyNoMulti)], []⟩ reqAnon "s1"
        policyNoMulti :=
  ⟨captcha_gate_behaviour.1 extPlain _ reqAnon "s3" policyCaptcha (by decide) rfl rfl,
    captcha_gate_behaviour.2.1 extPlain _ _ "s3" policyCaptcha "bad" (by decide) rfl rfl
      (by decide),
    captcha_gate_behaviour.2.2.1 extPlain _ _ "s3" policyCaptcha "good" (by decide) rfl rfl
      (by decide),
    captcha_gate_behaviour.2.2.2 extPlain _ reqAnon "s1" policyNoMulti (by decide) rfl⟩

/-- C4 counterexample: a survey with `requires_login = true` that also
requires captcha, called with no caller identity and no captcha token,
fails with `CaptchaRequiredError` — not with the authentication error —
because the captcha gate runs first, so the claimed outcome does not hold
"regardless of captcha outcome". -/
theorem auth_gate_counterexample :
    lookupSurvey ⟨[("s5", policyCaptchaLogin)], []⟩ "s5" = some policyCaptchaLogin ∧
    policyCaptchaLogin.requires_login = true ∧
    reqAnon.user = none ∧
    submitSurvey extPlain ⟨[("s5", policyCaptchaLogin)], []⟩ reqAnon "s5" =
      .error .CaptchaRequired ∧
    SubmitError.CaptchaRequired ≠ SubmitError.InvalidAccountAuth := by
  refine ⟨by decide, rfl, rfl, by rfl, by decide⟩

/-- C4 amended: for every submission to a survey with `requires_login =
true` and no caller identity, the pipeline fails with
`AuthenticationRequiredError` (`InvalidAccountAuth`) regardless of the
proxy outcome, provided the captcha gate passes (the survey does not
require captcha, or the supplied token verifies); and in all cases — any
captcha or proxy outcome — no answer set is persisted. -/
theorem auth_gate_amended :
    (∀ (ext : Externals) (st : StoreState) (req : RequestCtx) (sid : String)
        (survey : SurveyPolicy), lookupSurvey st sid = some survey →
        survey.requires_login = true → req.user = none →
        (survey.requires_captcha = false ∨
          ∃ t, req.captcha = some t ∧ ext.captchaVerify t = true) →
        submitSurvey ext st req sid = .error .InvalidAccountAuth) ∧
    (∀ (ext : Externals) (st : StoreState) (req : RequestCtx) (sid : String)
        (survey : SurveyPolicy) (result : StoreState),
        lookupSurvey st sid = some survey →
        survey.requires_login = true → req.user = none →
        submitSurvey ext st req sid ≠ .ok result) := by
  constructor
  · intro ext st req sid survey hs hl hu hcap
    rcases hcap with hc | ⟨t, ht, hv⟩
    · rw [submitSurvey_no_captcha hs hc]
      exact gatesAfterCaptcha_auth_error hl hu
    · cases hc : survey.requires_captcha
      · rw [submitSurvey_no_captcha hs hc]
        exact gatesAfterCaptcha_auth_error hl hu
      · rw [submitSurvey_captcha_valid hs hc ht hv]
        exact gatesAfterCaptcha_auth_error hl hu
  · intro ext st req sid survey result hs hl hu
    unfold submitSurvey
    rw [hs]
    cases hc : survey.requires_captcha
    · simp [hc, gatesAfterCaptcha_auth_error hl hu]
    · simp only [hc, if_true]
      cases hv : validate_captcha ext.captchaVerify req.captcha
      · simp [hv]
      · simp [hv, gatesAfterCaptcha_auth_error hl hu]

/-- C4 witness: a login-requiring survey with no captcha requirement
rejects an anonymous submission with the authentication error, and the
anonymous submission to the captcha-and-login survey of the
counterexample persists nothing either. -/
theorem auth_gate_amended_witness :
    submitSurvey extPlain ⟨[("s6", policyLogin)], []⟩ reqAnon "s6" =
      .error .InvalidAccountAuth ∧
    submitSurvey extPlain ⟨[("s5", policyCaptchaLogin)], []⟩ reqAnon "s5" ≠
      .ok ⟨[("s5", policyCaptchaLogin)], [⟨"s5", none⟩]⟩ :=
  ⟨auth_gate_amended.1 extPlain _ reqAnon "s6" policyLogin (by decide) rfl rfl
      (Or.inl rfl),
    auth_gate_amended.2 extPlain _ reqAnon "s5" policyCaptchaLogin _ (by decide) rfl rfl⟩

/-- C7: the public projection of a stored survey keeps only the
public-key halves of the sign keypair and the encryption keypair, has no
secret-key field, and is unchanged when every private/secret half of the
stored survey is erased — it carries no private-key or secret-key cipher
text. -/
theorem projectPublic_only_public_keys :
    (∀ s : SurveyModel,
        (projectPublic s).sign_keypair =
            ⟨s.create.sign_keypair.public_key⟩ ∧
          (projectPublic s).keypair = ⟨s.create.keypair.public_key⟩) ∧
    (∀ s : SurveyModel,
        projectPublic (eraseSecretMaterial s) = projectPublic s) := by
  exact ⟨fun s => ⟨rfl, rfl⟩, fun s => rfl⟩

/-! ## Survey-create validation lemmas -/

/-- Helper: a choice that passes its check has its id in range and a
valid label envelope. -/
theorem checkChoice_ok {c : SurveyChoicesModel} (h : checkChoice c = .ok ()) :
    idInRange c.id = true ∧ envelopeOk c.envelope choiceMaxLength = true := by
  unfold checkChoice at h
  by_cases hb : (idInRange c.id && envelopeOk c.envelope choiceMaxLength) = true
  · rw [Bool.and_eq_true] at hb
    exact hb
  · rw [if_neg hb] at h
    cases h

/-- Helper: a choice list that passes its check has every member pass. -/
theorem checkChoiceList_ok {cs : List SurveyChoicesModel}
    (h : checkChoiceList cs = .ok ()) : ∀ c ∈ cs, checkChoice c = .ok () := by
  induction cs with
  | nil => intro c hc; cases hc
  | cons a rest ih =>
    intro c hc
    unfold checkChoiceList at h
    cases ha : checkChoice a with
    | error e => simp [ha] at h
    | ok u =>
      cases u
      simp only [ha] at h
      rcases List.mem_cons.mp hc with rfl | hmem
      · exact ha
      · exact ih h c hmem

/-- Helper: everything a question that passes its check satisfies. -/
theorem checkQuestion_ok {q : SurveyQuestionModel}
    (h : checkQuestion q = .ok ()) :
    idInRange q.id = true ∧
      checkOptEnvelope q.regex regexMaxLength = .ok () ∧
      checkOptEnvelope q.description descriptionMaxLength = .ok () ∧
      envelopeOk q.question questionMaxLength = true ∧
      ∀ cs, q.choices = some cs →
        cs.length ≤ 56 ∧ checkChoiceList cs = .ok () ∧
          (cs.map (·.id)).Nodup := by
  unfold checkQuestion at h
  by_cases hid : idInRange q.id = true
  case neg => rw [if_neg hid] at h; cases h
  rw [if_pos hid] at h
  cases hr : checkOptEnvelope q.regex regexMaxLength with
  | error e => simp [hr] at h
  | ok u =>
    cases u
    simp only [hr] at h
    cases hd : checkOptEnvelope q.description descriptionMaxLength with
    | error e => simp [hd] at h
    | ok u =>
      cases u
      simp only [hd] at h
      by_cases hq : envelopeOk q.question questionMaxLength = true
      case neg => rw [if_neg hq] at h; cases h
      rw [if_pos hq] at h
      cases hch : q.choices with
      | none =>
        simp only [hch] at h
        exact ⟨hid, rfl, rfl, hq, fun cs hcs => nomatch hcs⟩
      | some cs =>
        simp only [hch] at h
        by_cases hlen : cs.length ≤ 56
        case neg => rw [if_neg hlen] at h; cases h
        rw [if_pos hlen] at h
        cases hcl : checkChoiceList cs with
        | error e => simp [hcl] at h
        | ok u =>
          cases u
          simp only [hcl] at h
          by_cases hnd : (cs.map (·.id)).Nodup
          case neg => rw [if_neg hnd] at h; cases h
          refine ⟨hid, rfl, rfl, hq, fun cs2 hcs2 => ?_⟩
          injection hcs2 with he
          subst he
          exact ⟨hlen, hcl, hnd⟩

/-- Helper: a question list that passes its check has every member pass. -/
theorem checkQuestionList_ok {qs : List SurveyQuestionModel}
    (h : checkQuestionList qs = .ok ()) : ∀ q ∈ qs, checkQuestion q = .ok () := by
  induction qs with
  | nil => intro q hq; cases hq
  | cons a rest ih =>
    intro q hq
    unfold checkQuestionList at h
    cases ha : checkQuestion a with
    | error e => simp [ha] at h
    | ok u =>
      cases u
      simp only [ha] at h
      rcases List.mem_cons.mp hq with rfl | hmem
      · exact ha
      · exact ih h q hmem

/-- Helper: the `questions` field check passing means every item passed,
the count bound held and the ids were pairwise distinct. -/
theorem checkQuestions_ok {qs : List SurveyQuestionModel}
    (h : checkQuestions qs = .ok ()) :
    checkQuestionList qs = .ok () ∧ qs.length ≤ 128 ∧
      (qs.map (·.id)).Nodup := by
  unfold checkQuestions at h
  cases hl : checkQuestionList qs with
  | error e => simp [hl] at h
  | ok u =>
    cases u
    simp only [hl] at h
    by_cases hlen : qs.length ≤ 128
    · rw [if_pos hlen] at h
      by_cases hnd : (qs.map (·.id)).Nodup
      · exact ⟨rfl, hlen, hnd⟩
      · rw [if_neg hnd] at h; cases h
    · rw [if_neg hlen] at h; cases h

/-- Helper: duplicate question ids (with every item otherwise passing and
the count in bound) make the `questions` check fail with the
duplicate-question-ids error. -/
theorem checkQuestions_dup {qs : List SurveyQuestionModel}
    (hl : checkQuestionList qs = .ok ()) (hlen : qs.length ≤ 128)
    (hnd : ¬ (qs.map (·.id)).Nodup) :
    checkQuestions qs = .error .DuplicateQuestionIds := by
  simp [checkQuestions, hl, hlen, hnd]

/-- Helper: an error of some item in the `questions` list surfaces from
the whole `questions` check. -/
theorem checkQuestions_list_error {qs : List SurveyQuestionModel} {e : ValError}
    (h : checkQuestionList qs = .error e) : checkQuestions qs = .error e := by
  simp [checkQuestions, h]

/-- Helper: a passing `checkSurveyCreate` passed the `questions` check. -/
theorem checkSurveyCreate_ok_questions {p : SurveyCreateModel}
    (h : checkSurveyCreate p = .ok ()) : checkQuestions p.questions = .ok () := by
  unfold checkSurveyCreate at h
  by_cases ht : envelopeOk p.title titleMaxLength = true
  case neg => rw [if_neg ht] at h; cases h
  rw [if_pos ht] at h
  cases hd : checkOptEnvelope p.description descriptionMaxLength with
  | error e => simp [hd] at h
  | ok u =>
    cases u
    simp only [hd] at h
    cases hq : checkQuestions p.questions with
    | error e => simp [hq] at h
    | ok u => cases u; exact rfl

/-- Helper: a failing `questions` check surfaces its error from
`checkSurveyCreate` when the earlier field checks pass. -/
theorem checkSurveyCreate_questions_error {p : SurveyCreateModel} {e : ValError}
    (ht : envelopeOk p.title titleMaxLength = true)
    (hd : checkOptEnvelope p.description descriptionMaxLength = .ok ())
    (hq : checkQuestions p.questions = .error e) :
    checkSurveyCreate p = .error e := by
  simp [checkSurveyCreate, ht, hd, hq]

/-- Helper: a successful validation returns the payload itself after a
passing `checkSurveyCreate`. -/
theorem validateSurveyCreate_ok {p s : SurveyCreateModel}
    (h : validateSurveyCreate p = .ok s) :
    s = p ∧ checkSurveyCreate p = .ok () := by
  unfold validateSurveyCreate at h
  cases hc : checkSurveyCreate p with
  | error e => rw [hc] at h; cases h
  | ok u =>
    cases u
    simp only [hc] at h
    injection h with h1
    exact ⟨h1.symm, rfl⟩

/-- Helper: `idInRange` unpacked into the claimed interval. -/
theorem idInRange_bounds {i : Int} (h : idInRange i = true) :
    0 ≤ i ∧ i < 1024 := by
  unfold idInRange at h
  rw [Bool.and_eq_true] at h
  exact ⟨of_decide_eq_true h.1, of_decide_eq_true h.2⟩

/-- C5: survey-create validation accepts a payload only if question ids
are pairwise distinct, choice ids within each question are pairwise
distinct, every question and choice id lies in `[0, 1024)`, there are at
most 128 questions and at most 56 choices per question; with the other
checks passing, duplicate question ids fail with the
duplicate-question-ids error, duplicate choice ids within a question fail
its check with the duplicate-choice-ids error, and a question-item error
surfaces from the whole payload validation. -/
theorem create_validation_bounds :
    (∀ p s : SurveyCreateModel, validateSurveyCreate p = .ok s →
        (p.questions.map (·.id)).Nodup ∧
        p.questions.length ≤ 128 ∧
        ∀ q ∈ p.questions,
          (0 ≤ q.id ∧ q.id < 1024) ∧
          ∀ cs, q.choices = some cs →
            (cs.map (·.id)).Nodup ∧ cs.length ≤ 56 ∧
            ∀ c ∈ cs, 0 ≤ c.id ∧ c.id < 1024) ∧
    (∀ p : SurveyCreateModel,
        envelopeOk p.title titleMaxLength = true →
        checkOptEnvelope p.description descriptionMaxLength = .ok () →
        checkQuestionList p.questions = .ok () →
        p.questions.length ≤ 128 →
        ¬ (p.questions.map (·.id)).Nodup →
        validateSurveyCreate p = .error .DuplicateQuestionIds) ∧
    (∀ (q : SurveyQuestionModel) (cs : List SurveyChoicesModel),
        idInRange q.id = true →
        checkOptEnvelope q.regex regexMaxLength = .ok () →
        checkOptEnvelope q.description descriptionMaxLength = .ok () →
        envelopeOk q.question questionMaxLength = true →
        q.choices = some cs →
        cs.length ≤ 56 →
        checkChoiceList cs = .ok () →
        ¬ (cs.map (·.id)).Nodup →
        checkQuestion q = .error .DuplicateChoiceIds) ∧
    (∀ (p : SurveyCreateModel) (e : ValError),
        envelopeOk p.title titleMaxLength = true →
        checkOptEnvelope p.description descriptionMaxLength = .ok () →
        checkQuestionList p.questions = .error e →
        validateSurveyCreate p = .error e) := by
  refine ⟨?_, ?_, ?_, ?_⟩
  · intro p s h
    obtain ⟨-, hcheck⟩ := validateSurveyCreate_ok h
    obtain ⟨hlist, hlen, hnd⟩ := checkQuestions_ok (checkSurveyCreate_ok_questions hcheck)
    refine ⟨hnd, hlen, fun q hq => ?_⟩
    obtain ⟨hid, -, -, -, hchoices⟩ := checkQuestion_ok (checkQuestionList_ok hlist q hq)
    refine ⟨idInRange_bounds hid, fun cs hcs => ?_⟩
    obtain ⟨hclen, hcl, hcnd⟩ := hchoices cs hcs
    exact ⟨hcnd, hclen, fun c hc =>
      idInRange_bounds (checkChoice_ok (checkChoiceList_ok hcl c hc)).1⟩
  · intro p ht hd hlist hlen hnd
    unfold validateSurveyCreate
    rw [checkSurveyCreate_questions_error ht hd (checkQuestions_dup hlist hlen hnd)]
  · intro q cs hid hr hd hq hcs hlen hcl hnd
    simp [checkQuestion, hid, hr, hd, hq, hcs, hlen, hcl, hnd]
  · intro p e ht hd hlist
    unfold validateSurveyCreate
    rw [checkSurveyCreate_questions_error ht hd (checkQuestions_list_error hlist)]

/-- C5 witness: the fully valid payload is accepted and satisfies all the
bounds; adding a second question with the colliding id 0 fails with the
duplicate-question-ids error; a question whose two choices share id 0
fails its check with the duplicate-choice-ids error, and the payload
containing it fails validation with that error. -/
theorem create_validation_bounds_witness :
    validateSurveyCreate payloadValid = .ok payloadValid ∧
    (payloadValid.questions.map (·.id)).Nodup ∧
    validateSurveyCreate payloadDupQuestionIds = .error .DuplicateQuestionIds ∧
    checkQuestion questionDupChoices = .error .DuplicateChoiceIds ∧
    validateSurveyCreate payloadDupChoiceIds = .error .DuplicateChoiceIds := by
  refine ⟨rfl, (create_validation_bounds.1 payloadValid payloadValid rfl).1,
    create_validation_bounds.2.1 payloadDupQuestionIds (by decide) rfl
      rfl (by decide) (by decide),
    create_validation_bounds.2.2.1 questionDupChoices [choiceZero, ⟨0, envOkSmall⟩]
      (by decide) rfl rfl (by decide) rfl (by decide)
      rfl (by decide),
    create_validation_bounds.2.2.2 payloadDupChoiceIds .DuplicateChoiceIds
      (by decide) rfl rfl⟩

/-- C9: a payload that survey-create validation accepts is returned
unchanged, and feeding the create fields of the stored aggregate built
from it (`projectFull` is the identity) back through the validation
succeeds with the same aggregate — re-validation is idempotent. -/
theorem revalidation_idempotent (data s : SurveyCreateModel) (now : Nat)
    (genId user : String) (h : validateSurveyCreate data = .ok s) :
    createProjection (projectFull (create_survey s now genId user)) = s ∧
    validateSurveyCreate
        (createProjection (projectFull (create_survey s now genId user))) =
      .ok s := by
  obtain ⟨hsp, hcheck⟩ := validateSurveyCreate_ok h
  subst hsp
  refine ⟨rfl, ?_⟩
  show validateSurveyCreate s = .ok s
  unfold validateSurveyCreate
  rw [hcheck]

/-- C9 witness: the valid concrete payload round-trips through creation
and re-validation. -/
theorem revalidation_idempotent_witness :
    validateSurveyCreate payloadValid = .ok payloadValid ∧
    createProjection (projectFull (create_survey payloadValid 0 "sid0" "owner")) =
      payloadValid ∧
    validateSurveyCreate
        (createProjection (projectFull (create_survey payloadValid 0 "sid0" "owner"))) =
      .ok payloadValid := by
  have h : validateSurveyCreate payloadValid = .ok payloadValid := rfl
  exact ⟨h, (revalidation_idempotent payloadValid payloadValid 0 "sid0" "owner" h).1,
    (revalidation_idempotent payloadValid payloadValid 0 "sid0" "owner" h).2⟩

end SyncPad
